import Mathlib

/-!
Verification of the `gateway-go` orchestration core of `ai-auditor-core`.

This file gives a shallow embedding, in Lean 4, of the Go code of the
gateway service:

* `services/gateway-go/src/store/store.go` — the in-memory task store
  (`Task`, `Store`, `AddTask`, `GetTask`, `UpdateTask`).  The Go map
  `map[string]*Task` is modelled as an association list with overwrite
  semantics for assignment.
* `services/gateway-go/worker_grpc.go` (the `package worker` variant,
  lines 150-257) — the gRPC orchestration worker, modelled as the pure
  function `processTask` over an environment `TaskEnv` recording the
  outcome of each external interaction (dials, RPCs, file copies).  The
  worker loop over the dispatch channel is `workerRun`.
* the simulated worker of the gateway prototype (`Worker` in the
  `package main` file with `NewStore`) — modelled as `simProcessTask`.
* `UploadHandler` in `src/handlers/http_handlers.go` — modelled as
  `uploadHandler` over a bounded `Queue` standing for the buffered
  `chan string`; a non-blocking channel send succeeds exactly when the
  buffer has free capacity.

Issue lists come from the shared proto (`Issue`, `AuditResponse`,
`ParsedData`, `Section`).  The proto field `score_impact` is a float
that the gateway code never reads, so it is omitted from the embedding.
Timeouts and transport errors are indistinguishable to the worker (both
surface as a non-nil `err`), so a failed RPC is modelled as `none`.
-/

namespace AuditorCore

/-- Severity levels of the shared proto: INFO < MEDIUM < CRITICAL. -/
inductive Severity where
  | INFO
  | MEDIUM
  | CRITICAL
deriving DecidableEq

/-- An issue as carried in `AuditResponse.Issues`.  The proto also has a
float `score_impact`, never read by the gateway code, hence omitted. -/
structure Issue where
  sectionId : Int
  code : String
  message : String
  severity : Severity
deriving DecidableEq

/-- `AuditResponse` of the shared proto, as consumed by the worker: only
the `Issues` field is read (`score_impact` is ignored by the gateway). -/
structure AuditResponse where
  issues : List Issue
deriving DecidableEq

/-- A parsed document section (shared proto `Section`). -/
structure Section where
  id : Int
  elementType : String
  rawText : String
  props : List (String × String)
deriving DecidableEq

/-- `ParsedData` of the shared proto; the worker only reads `Sections`
to build the semantic request. -/
structure ParsedData where
  docId : String
  sections : List Section
deriving DecidableEq

/-- `Task` of `store.go`: id, status, progress, and the three paths.
Go's `int` progress is modelled as `Int`. -/
structure Task where
  id : String
  status : String
  progress : Int
  sourcePath : String
  annotatedPath : String
  reportPath : String
deriving DecidableEq

/-- Assignment `m[i] = t` on a Go map modelled over an association list:
replace the existing binding for `i` if present, else append it. -/
def setTask : List (String × Task) → String → Task → List (String × Task)
  | [], i, t => [(i, t)]
  | (k, v) :: rest, i, t =>
      if k = i then (i, t) :: rest else (k, v) :: setTask rest i t

/-- `Store` of `store.go`: tasks keyed by id (the `sync.RWMutex` guards
the map; atomicity is implicit in the functional model). -/
structure Store where
  tasks : List (String × Task)
deriving DecidableEq

/-- `GetTask`: map lookup `s.tasks[id]`. -/
def Store.getTask (s : Store) (i : String) : Option Task :=
  (s.tasks.find? (fun p => p.1 = i)).map (fun p => p.2)

/-- `AddTask` of `store.go`: `s.tasks[t.ID] = t` — an unconditional map
assignment, overwriting any existing record with the same id. -/
def Store.addTask (s : Store) (t : Task) : Store :=
  ⟨setTask s.tasks t.id t⟩

/-- `UpdateTask` of `store.go`: apply `fn` to the stored record if the
id exists; returns the updated store and whether the task existed. -/
def Store.updateTask (s : Store) (i : String) (fn : Task → Task) : Store × Bool :=
  match s.getTask i with
  | none => (s, false)
  | some t => (⟨setTask s.tasks i (fn t)⟩, true)

/-- The network interactions the gRPC worker can perform, in source
order: dial parser, ParseDocument, dial engine, dial inference, and the
two parallel RPCs AuditRules / AnalyzeSemantics. -/
inductive NetCall where
  | parserDial
  | parseRPC
  | engineDial
  | inferenceDial
  | auditRPC
  | semanticRPC
deriving DecidableEq, BEq

/-- Environment of one task's processing: the outcome of every external
interaction the worker performs.  `none` for an RPC means the call
returned a non-nil error (RPC failure or deadline timeout — the worker
treats both identically).  `copyOk` is the outcome of `copyFile`, whose
error the worker discards (`_ = copyFile(...)`). -/
structure TaskEnv where
  parserDialOk : Bool
  parseResult : Option ParsedData
  engineDialOk : Bool
  inferenceDialOk : Bool
  auditResult : Option AuditResponse
  semResult : Option AuditResponse
  copyOk : Bool
deriving DecidableEq

/-- Line 243 of `worker_grpc.go`:
`issues := append(auditResp.Issues, semResp.Issues...)` — the list the
worker builds from the two audit-stage responses before writing the
report.  It is a plain concatenation. -/
def aggregateIssues (ruleIssues infIssues : List Issue) : List Issue :=
  ruleIssues ++ infIssues

/-- Result of processing one dequeued id: the store after processing,
the network calls performed, the successive values taken by the task's
record after each store mutation, and the issue list written into the
report file (if the report stage was reached). -/
structure ProcResult where
  store : Store
  calls : List NetCall
  snaps : List Task
  reportIssues : Option (List Issue)
deriving DecidableEq

/-- One iteration of the gRPC worker loop (`worker_grpc.go`, package
`worker` variant, lines 155-256), processing a single dequeued id.

Control flow mirrors the source: missing task → skip; set
Parsing/5; parser dial failure → `Error: parser connect`; ParseDocument
failure → `Error: parse`; set Auditing/40; engine dial failure →
`Error: engine connect`; inference dial failure →
`Error: inference connect`; otherwise both RPC goroutines run, each
substituting an empty `AuditResponse` on error, the issue lists are
concatenated, and one final mutation sets both paths, `Completed` and
progress 100.  `copyFile` / `WriteReport` errors are discarded by the
source, so `env.copyOk` is (faithfully) never read. -/
def processTask (env : TaskEnv) (s : Store) (i : String) : ProcResult :=
  match s.getTask i with
  | none => ⟨s, [], [], none⟩
  | some t0 =>
    let fParse : Task → Task := fun t => { t with status := "Parsing", progress := 5 }
    let s1 := (s.updateTask i fParse).1
    let c1 := fParse t0
    if env.parserDialOk then
      match env.parseResult with
      | none =>
        let fErr : Task → Task := fun t => { t with status := "Error: parse" }
        ⟨(s1.updateTask i fErr).1, [.parserDial, .parseRPC], [c1, fErr c1], none⟩
      | some _parsed =>
        let fAudit : Task → Task := fun t => { t with status := "Auditing", progress := 40 }
        let s2 := (s1.updateTask i fAudit).1
        let c2 := fAudit c1
        if env.engineDialOk then
          if env.inferenceDialOk then
            let auditResp := env.auditResult.getD ⟨[]⟩
            let semResp := env.semResult.getD ⟨[]⟩
            let issues := aggregateIssues auditResp.issues semResp.issues
            let annotated := t0.sourcePath ++ "-annotated.docx"
            let report := t0.sourcePath ++ "-report.json"
            let fDone : Task → Task := fun t =>
              { t with annotatedPath := annotated, reportPath := report,
                       status := "Completed", progress := 100 }
            ⟨(s2.updateTask i fDone).1,
             [.parserDial, .parseRPC, .engineDial, .inferenceDial, .auditRPC, .semanticRPC],
             [c1, c2, fDone c2], some issues⟩
          else
            let fErr : Task → Task := fun t => { t with status := "Error: inference connect" }
            ⟨(s2.updateTask i fErr).1,
             [.parserDial, .parseRPC, .engineDial, .inferenceDial],
             [c1, c2, fErr c2], none⟩
        else
          let fErr : Task → Task := fun t => { t with status := "Error: engine connect" }
          ⟨(s2.updateTask i fErr).1, [.parserDial, .parseRPC, .engineDial],
           [c1, c2, fErr c2], none⟩
    else
      let fErr : Task → Task := fun t => { t with status := "Error: parser connect" }
      ⟨(s1.updateTask i fErr).1, [.parserDial], [c1, fErr c1], none⟩

/-- The worker loop `for id := range tasks` over a finite queue of ids,
with per-id environments; returns the final store and, per id in order,
the network calls performed while processing it. -/
def workerRun (envs : String → TaskEnv) (s : Store) : List String → Store × List (String × List NetCall)
  | [] => (s, [])
  | i :: rest =>
    let r := processTask (envs i) s i
    let w := workerRun envs r.store rest
    (w.1, (i, r.calls) :: w.2)

/-- The simulated worker of the gateway prototype (`package main`
variant): missing task → skip; Parsing/10; Auditing/40; the loop
`for p := 50; p <= 90; p += 10` unrolled; final mutation setting both
paths, `Completed`, 100.  File side effects are discarded. -/
def simProcessTask (s : Store) (i : String) : Store × List Task :=
  match s.getTask i with
  | none => (s, [])
  | some t0 =>
    let fParse : Task → Task := fun t => { t with status := "Parsing", progress := 10 }
    let fAudit : Task → Task := fun t => { t with status := "Auditing", progress := 40 }
    let g : Int → Task → Task := fun p t => { t with progress := p }
    let annotated := "../temp_docs/" ++ i ++ "-annotated.docx"
    let report := "../temp_docs/" ++ i ++ "-report.json"
    let fDone : Task → Task := fun t =>
      { t with annotatedPath := annotated, reportPath := report,
               status := "Completed", progress := 100 }
    let s1 := (s.updateTask i fParse).1
    let s2 := (s1.updateTask i fAudit).1
    let s3 := (s2.updateTask i (g 50)).1
    let s4 := (s3.updateTask i (g 60)).1
    let s5 := (s4.updateTask i (g 70)).1
    let s6 := (s5.updateTask i (g 80)).1
    let s7 := (s6.updateTask i (g 90)).1
    let s8 := (s7.updateTask i fDone).1
    let c1 := fParse t0
    let c2 := fAudit c1
    let c3 := g 50 c2
    let c4 := g 60 c3
    let c5 := g 70 c4
    let c6 := g 80 c5
    let c7 := g 90 c6
    let c8 := fDone c7
    (s8, [c1, c2, c3, c4, c5, c6, c7, c8])

/-- A terminal task status: `Completed` or any of the `Error:*` states
the gateway code can set. -/
def isTerminalStatus (st : String) : Bool :=
  st == "Completed" || st == "Error: parse" || st == "Error: parser connect" ||
  st == "Error: engine connect" || st == "Error: inference connect"

/-- The `Error:parse`-class terminal statuses of the gRPC worker: the
parse-RPC failure state and the parser connect-failure state. -/
def isParseClassError (st : String) : Bool :=
  st == "Error: parse" || st == "Error: parser connect"

/-- A store of six pending tasks, used to exercise the worker on a
sequence of dequeues (the breaker scenario of the spec: five
consecutive inference failures followed by a sixth task). -/
def breakerStore : Store :=
  ⟨[("t1", ⟨"t1", "Pending", 0, "p1", "", ""⟩),
    ("t2", ⟨"t2", "Pending", 0, "p2", "", ""⟩),
    ("t3", ⟨"t3", "Pending", 0, "p3", "", ""⟩),
    ("t4", ⟨"t4", "Pending", 0, "p4", "", ""⟩),
    ("t5", ⟨"t5", "Pending", 0, "p5", "", ""⟩),
    ("t6", ⟨"t6", "Pending", 0, "p6", "", ""⟩)]⟩

/-- Environments for the breaker scenario: tasks t1-t5 suffer an
AnalyzeSemantics RPC failure/timeout (`semResult = none`) with
everything else healthy; t6's calls all succeed. -/
def breakerEnvs : String → TaskEnv := fun i =>
  if i = "t6" then ⟨true, some ⟨"d", []⟩, true, true, some ⟨[]⟩, some ⟨[]⟩, true⟩
  else ⟨true, some ⟨"d", []⟩, true, true, some ⟨[]⟩, none, true⟩

/-- The bounded dispatch channel `make(chan string, 100)`, modelled as a
FIFO buffer with a capacity. -/
structure Queue where
  capacity : Nat
  items : List String
deriving DecidableEq

/-- A non-blocking send on a buffered channel with no ready receiver
succeeds exactly when the buffer has free space; `isFull` is the
condition under which `select { case tasks <- id: ... default: ... }`
takes the `default` branch. -/
def Queue.isFull (q : Queue) : Bool :=
  q.capacity ≤ q.items.length

/-- Successful buffered send: append the id to the buffer. -/
def Queue.push (q : Queue) (i : String) : Queue :=
  ⟨q.capacity, q.items ++ [i]⟩

/-- Environment of one upload request: whether the `file` form field is
present, whether the save-to-disk steps succeed, and the generated
UUID. -/
structure UploadEnv where
  formFileOk : Bool
  fileSaveOk : Bool
  newId : String
deriving DecidableEq

/-- The HTTP outcome of `UploadHandler`: 202 with the task id, 400 for
a missing file field, or a propagated file-system error. -/
inductive UploadResponse where
  | accepted (taskId : String)
  | badRequest
  | ioError
deriving DecidableEq

/-- Result of one upload request: the store, the dispatch queue, the
ids handed to background enqueue goroutines, and the HTTP response. -/
structure UploadResult where
  store : Store
  queue : Queue
  background : List String
  response : UploadResponse
deriving DecidableEq

/-- `UploadHandler` of `src/handlers/http_handlers.go`: save the file,
`AddTask` a Pending record, then
`select { case tasks <- id: default: mark Queued; go func() { tasks <- id }() }`,
and reply 202 with the task id. -/
def uploadHandler (env : UploadEnv) (s : Store) (q : Queue) : UploadResult :=
  if env.formFileOk then
    if env.fileSaveOk then
      let dstPath := "../temp_docs/" ++ env.newId ++ ".docx"
      let s1 := s.addTask
        { id := env.newId, status := "Pending", progress := 0,
          sourcePath := dstPath, annotatedPath := "", reportPath := "" }
      if q.isFull then
        let s2 := (s1.updateTask env.newId (fun t => { t with status := "Queued" })).1
        ⟨s2, q, [env.newId], .accepted env.newId⟩
      else
        ⟨s1, q.push env.newId, [], .accepted env.newId⟩
    else
      ⟨s, q, [], .ioError⟩
  else
    ⟨s, q, [], .badRequest⟩

/-! ## Helper lemmas about the store -/

theorem find_setTask_self (l : List (String × Task)) (i : String) (t : Task) :
    (((setTask l i t).find? (fun p => p.1 = i)).map (fun p => p.2)) = some t := by
  induction l with
  | nil => simp [setTask, List.find?]
  | cons hd tl ih =>
    obtain ⟨k, v⟩ := hd
    by_cases hk : k = i
    · simp [setTask, hk, List.find?]
    · simp [setTask, hk, List.find?_cons, ih]

theorem find_setTask_ne (l : List (String × Task)) (i j : String) (t : Task)
    (h : j ≠ i) :
    ((setTask l i t).find? (fun p => p.1 = j)) = l.find? (fun p => p.1 = j) := by
  have hij : i ≠ j := Ne.symm h
  induction l with
  | nil => simp [setTask, List.find?, hij]
  | cons hd tl ih =>
    obtain ⟨k, v⟩ := hd
    by_cases hk : k = i
    · subst hk
      simp [setTask, List.find?_cons, hij]
    · simp [setTask, hk, List.find?_cons, ih]

theorem getTask_updateTask_self (s : Store) (i : String) (fn : Task → Task) :
    ((s.updateTask i fn).1).getTask i = (s.getTask i).map fn := by
  unfold Store.updateTask
  cases hg : s.getTask i with
  | none => simp [hg]
  | some t => simp [Store.getTask, find_setTask_self]

theorem getTask_updateTask_ne (s : Store) (i j : String) (fn : Task → Task)
    (h : j ≠ i) :
    ((s.updateTask i fn).1).getTask j = s.getTask j := by
  unfold Store.updateTask
  cases hg : s.getTask i with
  | none => simp
  | some t => simp [Store.getTask, find_setTask_ne _ _ _ _ h]

theorem getTask_addTask_self (s : Store) (t : Task) :
    (s.addTask t).getTask t.id = some t := by
  simp [Store.addTask, Store.getTask, find_setTask_self]

theorem getTask_addTask_ne (s : Store) (t : Task) (j : String) (h : j ≠ t.id) :
    (s.addTask t).getTask j = s.getTask j := by
  simp [Store.addTask, Store.getTask, find_setTask_ne _ _ _ _ h]

/-- Frame property of one worker iteration: processing id `i` never
touches the record of any other id `j`. -/
theorem processTask_frame (env : TaskEnv) (s : Store) (i j : String)
    (h : j ≠ i) :
    (processTask env s i).store.getTask j = s.getTask j := by
  unfold processTask
  cases hg : s.getTask i with
  | none => simp
  | some t0 =>
    obtain ⟨pdl, pr, edl, idl, ar, sr, co⟩ := env
    cases pdl <;> cases pr <;> cases edl <;> cases idl <;>
      simp [getTask_updateTask_ne _ _ _ _ h]

/-- Frame property of the worker loop: a task id not in the queue is
never mutated. -/
theorem workerRun_frame (envs : String → TaskEnv) (s : Store)
    (ids : List String) (j : String) (h : j ∉ ids) :
    (workerRun envs s ids).1.getTask j = s.getTask j := by
  induction ids generalizing s with
  | nil => simp [workerRun]
  | cons i rest ih =>
    have hji : j ≠ i := by
      intro hc
      exact h (hc ▸ List.mem_cons_self i rest)
    have hrest : j ∉ rest := fun hc => h (List.mem_cons_of_mem i hc)
    simp only [workerRun]
    rw [ih _ hrest, processTask_frame _ _ _ _ hji]

/-! ## Claim C1 — issue deduplication -/

/-- Claim C1 counterexample: with RuleEngine returning a MEDIUM issue
and Inference returning a CRITICAL issue for the same
`(section_id, code)` pair `(2, "ERR_FONT_001")`, the list the worker
writes into the report contains BOTH entries — two issues with the same
composite key — so the claimed deduplication (keep the higher severity)
does not happen. -/
theorem c1_duplicate_key_counterexample :
    ((processTask
        ⟨true, some ⟨"d", []⟩, true, true,
         some ⟨[⟨2, "ERR_FONT_001", "wrong font", .MEDIUM⟩]⟩,
         some ⟨[⟨2, "ERR_FONT_001", "wrong font", .CRITICAL⟩]⟩, true⟩
        ⟨[("t1", ⟨"t1", "Pending", 0, "../temp_docs/t1.docx", "", ""⟩)]⟩
        "t1").reportIssues.getD []).countP
      (fun x => x.sectionId == 2 && x.code == "ERR_FONT_001") = 2 := by
  decide

/-- Claim C1 (amended): the worker performs no deduplication — the
aggregated list is the concatenation of the RuleEngine issues and the
Inference issues, so for every composite key `(section_id, code)` the
output contains exactly as many issues with that key as the two inputs
together. -/
theorem c1_aggregation_concatenates_all_issues (ra ia : List Issue)
    (sid : Int) (c : String) :
    (aggregateIssues ra ia).countP (fun x => x.sectionId == sid && x.code == c) =
      ra.countP (fun x => x.sectionId == sid && x.code == c) +
      ia.countP (fun x => x.sectionId == sid && x.code == c) := by
  simp [aggregateIssues, List.countP_append]

/-! ## Claim C2 — issue ordering -/

/-- Claim C2 counterexample (the spec's Scenario B): RuleEngine returns
issues at sections `[3, 1, 2]`, Inference returns none; the list the
worker writes into the report keeps the order `[3, 1, 2]` — it is not
sorted ascending by `section_id`. -/
theorem c2_unsorted_counterexample :
    ((processTask
        ⟨true, some ⟨"d", []⟩, true, true,
         some ⟨[⟨3, "R3", "m3", .INFO⟩, ⟨1, "R1", "m1", .INFO⟩, ⟨2, "R2", "m2", .INFO⟩]⟩,
         some ⟨[]⟩, true⟩
        ⟨[("t1", ⟨"t1", "Pending", 0, "../temp_docs/t1.docx", "", ""⟩)]⟩
        "t1").reportIssues.getD []).map Issue.sectionId = [3, 1, 2] ∧
    ¬ List.Chain' (fun a b => a ≤ b)
      (((processTask
        ⟨true, some ⟨"d", []⟩, true, true,
         some ⟨[⟨3, "R3", "m3", .INFO⟩, ⟨1, "R1", "m1", .INFO⟩, ⟨2, "R2", "m2", .INFO⟩]⟩,
         some ⟨[]⟩, true⟩
        ⟨[("t1", ⟨"t1", "Pending", 0, "../temp_docs/t1.docx", "", ""⟩)]⟩
        "t1").reportIssues.getD []).map Issue.sectionId) := by
  have hmap : ((processTask
        ⟨true, some ⟨"d", []⟩, true, true,
         some ⟨[⟨3, "R3", "m3", .INFO⟩, ⟨1, "R1", "m1", .INFO⟩, ⟨2, "R2", "m2", .INFO⟩]⟩,
         some ⟨[]⟩, true⟩
        ⟨[("t1", ⟨"t1", "Pending", 0, "../temp_docs/t1.docx", "", ""⟩)]⟩
        "t1").reportIssues.getD []).map Issue.sectionId = ([3, 1, 2] : List Int) := by
    decide
  refine ⟨hmap, ?_⟩
  rw [hmap]
  intro hch
  rw [List.chain'_cons] at hch
  exact absurd hch.1 (by norm_num)

/-- Claim C2 (amended): the worker performs no sorting — the aggregated
list preserves the input order, RuleEngine issues first (in their
original order) followed by Inference issues (in theirs). -/
theorem c2_aggregation_preserves_input_order (ra ia : List Issue) :
    (aggregateIssues ra ia).map Issue.sectionId =
      ra.map Issue.sectionId ++ ia.map Issue.sectionId := by
  simp [aggregateIssues]

/-! ## Claim C7 — duplicate-id task creation -/

/-- Claim C7 counterexample: `AddTask` with an id already present does
not fail with any `DuplicateID` error (it has no failure mode at all)
and it replaces the existing record rather than leaving it unchanged. -/
theorem c7_duplicate_id_counterexample :
    ((Store.mk [("t1", ⟨"t1", "Pending", 0, "a.docx", "", ""⟩)]).addTask
        ⟨"t1", "Queued", 55, "b.docx", "", ""⟩).getTask "t1" =
      some ⟨"t1", "Queued", 55, "b.docx", "", ""⟩ ∧
    (⟨"t1", "Queued", 55, "b.docx", "", ""⟩ : Task) ≠
      ⟨"t1", "Pending", 0, "a.docx", "", ""⟩ := by
  decide

/-- Claim C7 (amended): `AddTask` is an unconditional map assignment —
called with an id that already exists it silently stores the new record
under that id (no `DuplicateID` error exists), and it leaves the record
of every other id unchanged. -/
theorem c7_addTask_overwrites (s : Store) (t : Task) (j : String)
    (h : j ≠ t.id) :
    (s.addTask t).getTask t.id = some t ∧
    (s.addTask t).getTask j = s.getTask j :=
  ⟨getTask_addTask_self s t, getTask_addTask_ne s t j h⟩

/-- Witness for `c7_addTask_overwrites` at a concrete input. -/
theorem c7_addTask_overwrites_witness :
    ("t2" : String) ≠ "t1" ∧
    (((Store.mk [("t1", ⟨"t1", "Pending", 0, "a.docx", "", ""⟩)]).addTask
        ⟨"t1", "Queued", 55, "b.docx", "", ""⟩).getTask "t1" =
      some ⟨"t1", "Queued", 55, "b.docx", "", ""⟩ ∧
    ((Store.mk [("t1", ⟨"t1", "Pending", 0, "a.docx", "", ""⟩)]).addTask
        ⟨"t1", "Queued", 55, "b.docx", "", ""⟩).getTask "t2" =
      (Store.mk [("t1", ⟨"t1", "Pending", 0, "a.docx", "", ""⟩)]).getTask "t2") :=
  ⟨by decide,
   c7_addTask_overwrites
     (Store.mk [("t1", ⟨"t1", "Pending", 0, "a.docx", "", ""⟩)])
     ⟨"t1", "Queued", 55, "b.docx", "", ""⟩ "t2" (by decide)⟩

/-! ## Claim C3 — inference-stage degradation -/

/-- Claim C3 counterexample: when the worker cannot connect to the
Inference service (dial failure), the task does NOT reach `Completed`
— it ends in the terminal state `Error: inference connect`, an
`Error:*` state caused by the inference stage. -/
theorem c3_inference_connect_error_counterexample :
    (((processTask ⟨true, some ⟨"d", []⟩, true, false, none, none, true⟩
        ⟨[("t1", ⟨"t1", "Pending", 0, "../temp_docs/t1.docx", "", ""⟩)]⟩
        "t1").store.getTask "t1").map Task.status =
      some "Error: inference connect") ∧
    isTerminalStatus "Error: inference connect" = true ∧
    ("Error: inference connect" : String) ≠ "Completed" := by
  decide

/-- Claim C3 (amended): if the Inference RPC itself fails or times out
after both audit-stage connections are established, the failing branch
substitutes an empty response, and the task reaches `Completed` with
the report containing exactly the RuleEngine issues.  (A failure to
even connect to the Inference service, by contrast, ends the task in
`Error: inference connect`.) -/
theorem c3_inference_rpc_failure_still_completes (pd : ParsedData)
    (ar : AuditResponse) (co : Bool) (s : Store) (i : String) (t0 : Task)
    (h : s.getTask i = some t0) :
    (((processTask ⟨true, some pd, true, true, some ar, none, co⟩ s i).store.getTask i).map
        Task.status = some "Completed") ∧
    ((processTask ⟨true, some pd, true, true, some ar, none, co⟩ s i).reportIssues =
      some ar.issues) := by
  simp [processTask, h, aggregateIssues, getTask_updateTask_self]

/-- Witness for `c3_inference_rpc_failure_still_completes` at a
concrete input. -/
theorem c3_inference_rpc_failure_still_completes_witness :
    (Store.mk [("t1", ⟨"t1", "Pending", 0, "p", "", ""⟩)]).getTask "t1" =
      some ⟨"t1", "Pending", 0, "p", "", ""⟩ ∧
    ((((processTask ⟨true, some ⟨"d", []⟩, true, true,
          some ⟨[⟨1, "R1", "m1", .MEDIUM⟩]⟩, none, true⟩
        (Store.mk [("t1", ⟨"t1", "Pending", 0, "p", "", ""⟩)]) "t1").store.getTask "t1").map
        Task.status = some "Completed") ∧
     ((processTask ⟨true, some ⟨"d", []⟩, true, true,
          some ⟨[⟨1, "R1", "m1", .MEDIUM⟩]⟩, none, true⟩
        (Store.mk [("t1", ⟨"t1", "Pending", 0, "p", "", ""⟩)]) "t1").reportIssues =
      some (AuditResponse.mk [⟨1, "R1", "m1", .MEDIUM⟩]).issues)) :=
  ⟨by decide,
   c3_inference_rpc_failure_still_completes ⟨"d", []⟩ ⟨[⟨1, "R1", "m1", .MEDIUM⟩]⟩
     true (Store.mk [("t1", ⟨"t1", "Pending", 0, "p", "", ""⟩)]) "t1"
     ⟨"t1", "Pending", 0, "p", "", ""⟩ (by decide)⟩

/-! ## Claim C4 — circuit breaker -/

/-- Claim C4 counterexample: there is no circuit breaker.  In a run of
six tasks where the first five all suffer AnalyzeSemantics
failures/timeouts (five consecutive failures, more than any plausible
threshold N), the sixth task's semantic call is still a real network
RPC — it is not short-circuited, and no Closed/Open/HalfOpen state
exists anywhere in the code. -/
theorem c4_no_breaker_counterexample :
    (["t1", "t2", "t3", "t4", "t5"].all
        (fun i => ((breakerEnvs i).semResult).isNone)) = true ∧
    (workerRun breakerEnvs breakerStore
        ["t1", "t2", "t3", "t4", "t5", "t6"]).2.map
        (fun p => (p.1, p.2.contains NetCall.semanticRPC)) =
      [("t1", true), ("t2", true), ("t3", true), ("t4", true),
       ("t5", true), ("t6", true)] := by
  decide

/-- Claim C4 (amended): the Inference client is not wrapped by any
breaker — whenever a task's processing reaches the audit stage (parse
succeeded, both dials succeeded), the worker issues the
AnalyzeSemantics network call, regardless of how many previous tasks'
inference calls failed. -/
theorem c4_inference_always_hits_network (pd : ParsedData)
    (ar sr : Option AuditResponse) (co : Bool) (s : Store) (i : String)
    (t0 : Task) (h : s.getTask i = some t0) :
    NetCall.semanticRPC ∈
      (processTask ⟨true, some pd, true, true, ar, sr, co⟩ s i).calls := by
  simp [processTask, h]

/-- Witness for `c4_inference_always_hits_network` at a concrete
input. -/
theorem c4_inference_always_hits_network_witness :
    breakerStore.getTask "t6" = some ⟨"t6", "Pending", 0, "p6", "", ""⟩ ∧
    NetCall.semanticRPC ∈
      (processTask ⟨true, some ⟨"d", []⟩, true, true, some ⟨[]⟩, some ⟨[]⟩, true⟩
        breakerStore "t6").calls :=
  ⟨by decide,
   c4_inference_always_hits_network ⟨"d", []⟩ (some ⟨[]⟩) (some ⟨[]⟩) true
     breakerStore "t6" ⟨"t6", "Pending", 0, "p6", "", ""⟩ (by decide)⟩

/-! ## Claim C5 — parse failure is fatal -/

/-- Claim C5: if the parse stage fails — parser dial failure or
ParseDocument error/timeout — the task ends in an `Error:parse`-class
terminal state with progress 5 (≤ 5), both paths still empty, no report
issue list is produced, the worker performs no further stage call for
the task, and the task's record is never touched again by processing
the rest of the queue (no automatic retry). -/
theorem c5_parse_failure_fatal (env : TaskEnv) (s : Store) (i : String)
    (t0 : Task) (hGet : s.getTask i = some t0)
    (hAnn : t0.annotatedPath = "") (hRep : t0.reportPath = "")
    (hFail : env.parserDialOk = false ∨ env.parseResult = none) :
    ∃ t1 : Task,
      (processTask env s i).store.getTask i = some t1 ∧
      isParseClassError t1.status = true ∧
      t1.progress ≤ 5 ∧
      t1.annotatedPath = "" ∧ t1.reportPath = "" ∧
      (processTask env s i).reportIssues = none ∧
      NetCall.engineDial ∉ (processTask env s i).calls ∧
      ∀ (envs : String → TaskEnv) (rest : List String), i ∉ rest →
        (workerRun envs (processTask env s i).store rest).1.getTask i = some t1 := by
  obtain ⟨pdl, pr, edl, idl, ar, sr, co⟩ := env
  cases pdl with
  | false =>
    have hstore : (processTask ⟨false, pr, edl, idl, ar, sr, co⟩ s i).store.getTask i =
        some { t0 with status := "Error: parser connect", progress := 5 } := by
      simp [processTask, hGet, getTask_updateTask_self]
    refine ⟨{ t0 with status := "Error: parser connect", progress := 5 },
      hstore, rfl, by norm_num, hAnn, hRep, ?_, ?_, ?_⟩
    · simp [processTask, hGet]
    · simp [processTask, hGet]
    · intro envs rest hni
      rw [workerRun_frame _ _ _ _ hni, hstore]
  | true =>
    rcases hFail with hf | hf
    · exact absurd hf (by simp)
    · simp only at hf
      subst hf
      have hstore : (processTask ⟨true, none, edl, idl, ar, sr, co⟩ s i).store.getTask i =
          some { t0 with status := "Error: parse", progress := 5 } := by
        simp [processTask, hGet, getTask_updateTask_self]
      refine ⟨{ t0 with status := "Error: parse", progress := 5 },
        hstore, rfl, by norm_num, hAnn, hRep, ?_, ?_, ?_⟩
      · simp [processTask, hGet]
      · simp [processTask, hGet]
      · intro envs rest hni
        rw [workerRun_frame _ _ _ _ hni, hstore]

/-- Witness for `c5_parse_failure_fatal` at a concrete input (parser
dial failure). -/
theorem c5_parse_failure_fatal_witness :
    (Store.mk [("t1", ⟨"t1", "Pending", 0, "p", "", ""⟩)]).getTask "t1" =
      some ⟨"t1", "Pending", 0, "p", "", ""⟩ ∧
    (⟨"t1", "Pending", 0, "p", "", ""⟩ : Task).annotatedPath = "" ∧
    (⟨"t1", "Pending", 0, "p", "", ""⟩ : Task).reportPath = "" ∧
    ((⟨false, none, true, true, none, none, true⟩ : TaskEnv).parserDialOk = false ∨
      (⟨false, none, true, true, none, none, true⟩ : TaskEnv).parseResult = none) ∧
    (∃ t1 : Task,
      (processTask ⟨false, none, true, true, none, none, true⟩
          (Store.mk [("t1", ⟨"t1", "Pending", 0, "p", "", ""⟩)]) "t1").store.getTask "t1" =
        some t1 ∧
      isParseClassError t1.status = true ∧
      t1.progress ≤ 5 ∧
      t1.annotatedPath = "" ∧ t1.reportPath = "" ∧
      (processTask ⟨false, none, true, true, none, none, true⟩
          (Store.mk [("t1", ⟨"t1", "Pending", 0, "p", "", ""⟩)]) "t1").reportIssues = none ∧
      NetCall.engineDial ∉
        (processTask ⟨false, none, true, true, none, none, true⟩
          (Store.mk [("t1", ⟨"t1", "Pending", 0, "p", "", ""⟩)]) "t1").calls ∧
      ∀ (envs : String → TaskEnv) (rest : List String), "t1" ∉ rest →
        (workerRun envs
            (processTask ⟨false, none, true, true, none, none, true⟩
              (Store.mk [("t1", ⟨"t1", "Pending", 0, "p", "", ""⟩)]) "t1").store
            rest).1.getTask "t1" = some t1) :=
  ⟨by decide, rfl, rfl, Or.inl rfl,
   c5_parse_failure_fatal ⟨false, none, true, true, none, none, true⟩
     (Store.mk [("t1", ⟨"t1", "Pending", 0, "p", "", ""⟩)]) "t1"
     ⟨"t1", "Pending", 0, "p", "", ""⟩ (by decide) rfl rfl (Or.inl rfl)⟩

/-! ## Claim C6 — progress monotonicity -/

/-- Claim C6: starting from a freshly created task (progress 0), the
successive values the task's record takes during one worker iteration
have non-decreasing progress, in both the gRPC worker and the simulated
worker. -/
theorem c6_progress_monotone (env : TaskEnv) (s : Store) (i : String)
    (t0 : Task) (hGet : s.getTask i = some t0) (hP : t0.progress = 0) :
    List.Chain' (fun a b => a.progress ≤ b.progress)
      (t0 :: (processTask env s i).snaps) ∧
    List.Chain' (fun a b => a.progress ≤ b.progress)
      (t0 :: (simProcessTask s i).2) := by
  obtain ⟨pdl, pr, edl, idl, ar, sr, co⟩ := env
  constructor
  · cases pdl <;> cases pr <;> cases edl <;> cases idl <;>
      simp [processTask, hGet, List.chain'_cons, hP]
  · simp [simProcessTask, hGet, List.chain'_cons, hP]

/-- Witness for `c6_progress_monotone` at a concrete input. -/
theorem c6_progress_monotone_witness :
    (Store.mk [("t1", ⟨"t1", "Pending", 0, "p", "", ""⟩)]).getTask "t1" =
      some ⟨"t1", "Pending", 0, "p", "", ""⟩ ∧
    (⟨"t1", "Pending", 0, "p", "", ""⟩ : Task).progress = 0 ∧
    (List.Chain' (fun a b => a.progress ≤ b.progress)
      ((⟨"t1", "Pending", 0, "p", "", ""⟩ : Task) ::
        (processTask ⟨true, some ⟨"d", []⟩, true, true, some ⟨[]⟩, some ⟨[]⟩, true⟩
          (Store.mk [("t1", ⟨"t1", "Pending", 0, "p", "", ""⟩)]) "t1").snaps) ∧
     List.Chain' (fun a b => a.progress ≤ b.progress)
      ((⟨"t1", "Pending", 0, "p", "", ""⟩ : Task) ::
        (simProcessTask
          (Store.mk [("t1", ⟨"t1", "Pending", 0, "p", "", ""⟩)]) "t1").2)) :=
  ⟨by decide, rfl,
   c6_progress_monotone ⟨true, some ⟨"d", []⟩, true, true, some ⟨[]⟩, some ⟨[]⟩, true⟩
     (Store.mk [("t1", ⟨"t1", "Pending", 0, "p", "", ""⟩)]) "t1"
     ⟨"t1", "Pending", 0, "p", "", ""⟩ (by decide) rfl⟩

/-! ## Claim C8 — artifact paths -/

/-- Claim C8 counterexample: the worker discards `copyFile`'s error, so
even when the annotation copy fails (`copyOk = false`) the completed
task's `annotated_path` is set to the derived non-empty path — it does
not remain empty. -/
theorem c8_annotated_path_despite_copy_failure :
    (((processTask ⟨true, some ⟨"d", []⟩, true, true, some ⟨[]⟩, some ⟨[]⟩, false⟩
        ⟨[("t1", ⟨"t1", "Pending", 0, "../temp_docs/t1.docx", "", ""⟩)]⟩
        "t1").store.getTask "t1").map Task.annotatedPath =
      some "../temp_docs/t1.docx-annotated.docx") ∧
    ¬ (((processTask ⟨true, some ⟨"d", []⟩, true, true, some ⟨[]⟩, some ⟨[]⟩, false⟩
        ⟨[("t1", ⟨"t1", "Pending", 0, "../temp_docs/t1.docx", "", ""⟩)]⟩
        "t1").store.getTask "t1").map Task.annotatedPath = some "") := by
  decide

/-- Claim C8 (amended): during one worker iteration on a task whose
paths are empty, every intermediate record value still has both paths
empty, and a record value with a path set can only be the final one —
set together with `report_path`, status `Completed` and progress 100 in
a single mutation.  However `annotated_path` is set to the derived path
regardless of whether the annotation copy succeeded. -/
theorem c8_paths_set_once_with_completion (env : TaskEnv) (s : Store)
    (i : String) (t0 : Task) (hGet : s.getTask i = some t0)
    (hAnn : t0.annotatedPath = "") (hRep : t0.reportPath = "") :
    (∀ x ∈ (processTask env s i).snaps,
        (x.annotatedPath = "" ∧ x.reportPath = "") ∨
        (x.status = "Completed" ∧ x.progress = 100 ∧
         x.annotatedPath = t0.sourcePath ++ "-annotated.docx" ∧
         x.reportPath = t0.sourcePath ++ "-report.json")) ∧
    ((processTask env s i).snaps.dropLast.all
        (fun x => x.annotatedPath == "" && x.reportPath == "")) = true := by
  obtain ⟨pdl, pr, edl, idl, ar, sr, co⟩ := env
  cases pdl <;> cases pr <;> cases edl <;> cases idl <;>
    simp [processTask, hGet, hAnn, hRep]

/-- Witness for `c8_paths_set_once_with_completion` at a concrete
input. -/
theorem c8_paths_set_once_with_completion_witness :
    (Store.mk [("t1", ⟨"t1", "Pending", 0, "p", "", ""⟩)]).getTask "t1" =
      some ⟨"t1", "Pending", 0, "p", "", ""⟩ ∧
    (⟨"t1", "Pending", 0, "p", "", ""⟩ : Task).annotatedPath = "" ∧
    (⟨"t1", "Pending", 0, "p", "", ""⟩ : Task).reportPath = "" ∧
    ((∀ x ∈ (processTask ⟨true, some ⟨"d", []⟩, true, true, some ⟨[]⟩, some ⟨[]⟩, true⟩
          (Store.mk [("t1", ⟨"t1", "Pending", 0, "p", "", ""⟩)]) "t1").snaps,
        (x.annotatedPath = "" ∧ x.reportPath = "") ∨
        (x.status = "Completed" ∧ x.progress = 100 ∧
         x.annotatedPath = (⟨"t1", "Pending", 0, "p", "", ""⟩ : Task).sourcePath ++ "-annotated.docx" ∧
         x.reportPath = (⟨"t1", "Pending", 0, "p", "", ""⟩ : Task).sourcePath ++ "-report.json")) ∧
     ((processTask ⟨true, some ⟨"d", []⟩, true, true, some ⟨[]⟩, some ⟨[]⟩, true⟩
          (Store.mk [("t1", ⟨"t1", "Pending", 0, "p", "", ""⟩)]) "t1").snaps.dropLast.all
        (fun x => x.annotatedPath == "" && x.reportPath == "")) = true) :=
  ⟨by decide, rfl, rfl,
   c8_paths_set_once_with_completion
     ⟨true, some ⟨"d", []⟩, true, true, some ⟨[]⟩, some ⟨[]⟩, true⟩
     (Store.mk [("t1", ⟨"t1", "Pending", 0, "p", "", ""⟩)]) "t1"
     ⟨"t1", "Pending", 0, "p", "", ""⟩ (by decide) rfl rfl⟩

/-! ## Claim C9 — non-blocking intake -/

/-- Claim C9: a successful upload always completes with 202 and the
task id; if the dispatch queue has free capacity the id is enqueued
immediately (task left `Pending`), and if the queue is full the task is
marked `Queued`, the queue is untouched, and the id is handed to a
background enqueue goroutine — the handler never waits for queue
space. -/
theorem c9_upload_never_blocks (nid : String) (s : Store) (q : Queue) :
    (uploadHandler ⟨true, true, nid⟩ s q).response = UploadResponse.accepted nid ∧
    (if q.isFull then
        (uploadHandler ⟨true, true, nid⟩ s q).queue = q ∧
        (uploadHandler ⟨true, true, nid⟩ s q).background = [nid] ∧
        ((uploadHandler ⟨true, true, nid⟩ s q).store.getTask nid).map Task.status =
          some "Queued"
      else
        (uploadHandler ⟨true, true, nid⟩ s q).queue.items = q.items ++ [nid] ∧
        (uploadHandler ⟨true, true, nid⟩ s q).background = [] ∧
        ((uploadHandler ⟨true, true, nid⟩ s q).store.getTask nid).map Task.status =
          some "Pending") := by
  have hadd : ∀ (s1 : Store),
      (s1.addTask ⟨nid, "Pending", 0, "../temp_docs/" ++ nid ++ ".docx", "", ""⟩).getTask nid =
        some ⟨nid, "Pending", 0, "../temp_docs/" ++ nid ++ ".docx", "", ""⟩ :=
    fun s1 => getTask_addTask_self s1 _
  by_cases hq : q.isFull
  · simp [uploadHandler, hq, getTask_updateTask_self, hadd]
  · simp [uploadHandler, hq, Queue.push, hadd]

/-! ## Claim C10 — dequeue of an unknown id -/

/-- Claim C10: dequeuing an id with no stored record mutates nothing —
the store is returned unchanged, no network call is made (gRPC worker),
the simulated worker also leaves the store unchanged, and the worker
loop continues with the rest of the queue as if the id had not been
there. -/
theorem c10_missing_task_skipped (env : TaskEnv) (envs : String → TaskEnv)
    (s : Store) (i : String) (rest : List String)
    (h : s.getTask i = none) :
    (processTask env s i).store = s ∧
    (processTask env s i).calls = [] ∧
    (simProcessTask s i).1 = s ∧
    (workerRun envs s (i :: rest)).1 = (workerRun envs s rest).1 := by
  refine ⟨?_, ?_, ?_, ?_⟩ <;> simp [processTask, simProcessTask, workerRun, h]

/-- Witness for `c10_missing_task_skipped` at a concrete input. -/
theorem c10_missing_task_skipped_witness :
    (Store.mk [("t1", ⟨"t1", "Pending", 0, "p", "", ""⟩)]).getTask "ghost" = none ∧
    ((processTask ⟨true, none, true, true, none, none, true⟩
        (Store.mk [("t1", ⟨"t1", "Pending", 0, "p", "", ""⟩)]) "ghost").store =
      Store.mk [("t1", ⟨"t1", "Pending", 0, "p", "", ""⟩)] ∧
     (processTask ⟨true, none, true, true, none, none, true⟩
        (Store.mk [("t1", ⟨"t1", "Pending", 0, "p", "", ""⟩)]) "ghost").calls = [] ∧
     (simProcessTask (Store.mk [("t1", ⟨"t1", "Pending", 0, "p", "", ""⟩)]) "ghost").1 =
      Store.mk [("t1", ⟨"t1", "Pending", 0, "p", "", ""⟩)] ∧
     (workerRun (fun _ => ⟨true, none, true, true, none, none, true⟩)
        (Store.mk [("t1", ⟨"t1", "Pending", 0, "p", "", ""⟩)]) ["ghost", "t1"]).1 =
      (workerRun (fun _ => ⟨true, none, true, true, none, none, true⟩)
        (Store.mk [("t1", ⟨"t1", "Pending", 0, "p", "", ""⟩)]) ["t1"]).1) :=
  ⟨by decide,
   c10_missing_task_skipped ⟨true, none, true, true, none, none, true⟩
     (fun _ => ⟨true, none, true, true, none, none, true⟩)
     (Store.mk [("t1", ⟨"t1", "Pending", 0, "p", "", ""⟩)]) "ghost" ["t1"]
     (by decide)⟩

end AuditorCore
